import Mathlib

/-!
Verification development for the mindMate python worker service.

The development shallowly embeds the worker code (worker.py and the
utils modules) as executable Lean definitions.  External collaborators
(the Redis connection, the MongoDB driver, boto3, requests, the
generative model, the transcript API, the crawler) are modelled as
oracle parameters; everything the repository itself computes is
translated directly from the python source.
-/

/-- JSON-like values as produced by json.loads and manipulated through
python dicts and lists in the worker.  Numbers are modelled as integers,
which suffices for every value the claims touch. -/
inductive J where
  | jnull
  | jbool (b : Bool)
  | jnum (n : Int)
  | jstr (s : String)
  | jarr (xs : List J)
  | jobj (fields : List (String × J))
deriving Repr

mutual
/-- Structural equality test on JSON values (python == on parsed JSON). -/
def J.beq : J → J → Bool
  | .jnull, .jnull => true
  | .jbool a, .jbool b => a == b
  | .jnum a, .jnum b => a == b
  | .jstr a, .jstr b => a == b
  | .jarr xs, .jarr ys => J.beqList xs ys
  | .jobj xs, .jobj ys => J.beqFields xs ys
  | _, _ => false

/-- Pointwise equality of JSON arrays. -/
def J.beqList : List J → List J → Bool
  | [], [] => true
  | x :: xs, y :: ys => J.beq x y && J.beqList xs ys
  | _, _ => false

/-- Pointwise equality of JSON object field lists. -/
def J.beqFields : List (String × J) → List (String × J) → Bool
  | [], [] => true
  | (k, v) :: xs, (l, w) :: ys => k == l && J.beq v w && J.beqFields xs ys
  | _, _ => false
end

/-- First value bound to a key in an object field list (python dict lookup;
json.loads produces dicts, so keys are unique and first-match is exact). -/
def lookupF (fields : List (String × J)) (k : String) : Option J :=
  match fields with
  | [] => none
  | (k2, v) :: rest => if k2 == k then some v else lookupF rest k

/-- Key membership in an object field list (python `k in d`). -/
def hasKeyF (fields : List (String × J)) (k : String) : Bool :=
  (lookupF fields k).isSome

/-- python d.get(k): some value for object fields, none otherwise. -/
def J.get (j : J) (k : String) : Option J :=
  match j with
  | .jobj fields => lookupF fields k
  | _ => none

/-- python `k in d` for a JSON dict value. -/
def J.hasKey (j : J) (k : String) : Bool :=
  match j with
  | .jobj fields => hasKeyF fields k
  | _ => false

/-- python truthiness bool(x) of a JSON value. -/
def truthy : J → Bool
  | .jnull => false
  | .jbool b => b
  | .jnum n => n != 0
  | .jstr s => s != ""
  | .jarr xs => !xs.isEmpty
  | .jobj fs => !fs.isEmpty

/-- python truthiness of d.get(k), where a missing key yields None. -/
def truthyOpt (o : Option J) : Bool :=
  match o with
  | none => false
  | some j => truthy j

/-- python truthiness of an Optional[str] value: None and the empty
string are falsy. -/
def truthyStrOpt (o : Option String) : Bool :=
  match o with
  | none => false
  | some s => s != ""

/-- python truthiness of `s.strip()`: true exactly when the string holds
a character that is not whitespace. -/
def strippedNonempty (s : String) : Bool :=
  s.toList.any (fun c => !c.isWhitespace)

/-- python s.startswith(pre), on character sequences. -/
def pyStartsWith (s pre : String) : Bool :=
  pre.toList.isPrefixOf s.toList

/-- python len(s): the number of characters. -/
def pyLen (s : String) : Nat :=
  s.toList.length

/-- python s[n:]: drop the first n characters. -/
def pyDrop (s : String) (n : Nat) : String :=
  String.mk (s.toList.drop n)

/-- python s.lstrip(c) for a single strip character. -/
def pyLstripChar (s : String) (c : Char) : String :=
  String.mk (s.toList.dropWhile (fun d => d == c))

/-- python s.rstrip(c) for a single strip character. -/
def pyRstripChar (s : String) (c : Char) : String :=
  String.mk ((s.toList.reverse.dropWhile (fun d => d == c)).reverse)

/-- Splitting worker for pySplit, with explicit fuel (always at least the
length of the remaining input plus one, so the fuel never runs out for a
non-empty separator). -/
def pySplitAux (sep : List Char) : Nat → List Char → List Char → List (List Char)
  | 0, cs, acc => [acc.reverse ++ cs]
  | fuel + 1, cs, acc =>
    match cs with
    | [] => [acc.reverse]
    | c :: rest =>
      if sep.isPrefixOf (c :: rest) then
        acc.reverse :: pySplitAux sep fuel ((c :: rest).drop sep.length) []
      else pySplitAux sep fuel rest (c :: acc)

/-- python s.split(sep) for a non-empty separator: the maximal split on
every occurrence of sep, keeping empty pieces. -/
def pySplit (s sep : String) : List String :=
  (pySplitAux sep.toList (s.toList.length + 1) s.toList []).map String.mk

/-- Lexicographic order on character sequences by code point (python
string comparison, as used by sorted keys). -/
def charListLe : List Char → List Char → Bool
  | [], _ => true
  | _ :: _, [] => false
  | c :: cs, d :: ds =>
    if c == d then charListLe cs ds else Nat.blt c.toNat d.toNat

/-- python string comparison a <= b by code points. -/
def strLe (a b : String) : Bool :=
  charListLe a.toList b.toList

/-- Insert a key-value pair into a list sorted by key (helper for the
canonical, key-sorted serialization json.dumps(..., sort_keys=True)). -/
def insertByKey (p : String × J) : List (String × J) → List (String × J)
  | [] => [p]
  | q :: qs => if strLe p.1 q.1 then p :: q :: qs else q :: insertByKey p qs

/-- Sort an object field list by key. -/
def sortByKey (l : List (String × J)) : List (String × J) :=
  l.foldr insertByKey []

mutual
/-- Canonical form of a JSON value: object keys sorted recursively.
Models the payload fingerprint hash(json.dumps(task_data, sort_keys=True))
in worker.process_task: two payloads get the same fingerprint exactly when
their canonical forms agree. -/
def canon : J → J
  | .jnull => .jnull
  | .jbool b => .jbool b
  | .jnum n => .jnum n
  | .jstr s => .jstr s
  | .jarr xs => .jarr (canonList xs)
  | .jobj fs => .jobj (sortByKey (canonFields fs))

/-- Canonical forms of the elements of a JSON array. -/
def canonList : List J → List J
  | [] => []
  | x :: xs => canon x :: canonList xs

/-- Canonical forms of the values of an object field list. -/
def canonFields : List (String × J) → List (String × J)
  | [] => []
  | (k, v) :: fs => (k, canon v) :: canonFields fs
end

/-! ## utils/gen_stuff.py -/

/-- Wellformedness of one flashcard entry, from
validate_response_structure: a dict with string front and back fields. -/
def validFlashcard (c : J) : Bool :=
  match c with
  | .jobj fs =>
    hasKeyF fs "front" && hasKeyF fs "back" &&
    (match lookupF fs "front" with | some (.jstr _) => true | _ => false) &&
    (match lookupF fs "back" with | some (.jstr _) => true | _ => false)
  | _ => false

/-- Wellformedness of one MCQ entry, from validate_response_structure:
a dict with a string question, an options dict holding keys A, B, C, D,
and a correct_answer equal to one of those four labels. -/
def validMcq (m : J) : Bool :=
  match m with
  | .jobj fs =>
    hasKeyF fs "question" && hasKeyF fs "options" && hasKeyF fs "correct_answer" &&
    (match lookupF fs "question" with | some (.jstr _) => true | _ => false) &&
    (match lookupF fs "options" with
     | some (.jobj opts) => ["A", "B", "C", "D"].all (fun o => hasKeyF opts o)
     | _ => false) &&
    (match lookupF fs "correct_answer" with
     | some (.jstr a) => ["A", "B", "C", "D"].contains a
     | _ => false)
  | _ => false

/-- Embedding of gen_stuff.validate_response_structure: the parsed
response must be a dict with summary, flashcards and mcqs keys, a
non-blank string summary, a list of wellformed flashcards and a list of
wellformed MCQs.  Note that no bound on the lengths of the two lists is
checked. -/
def validate_response_structure (data : J) : Bool :=
  match data with
  | .jobj fs =>
    (["summary", "flashcards", "mcqs"].all (fun k => hasKeyF fs k)) &&
    (match lookupF fs "summary" with
     | some (.jstr s) => strippedNonempty s
     | _ => false) &&
    (match lookupF fs "flashcards" with
     | some (.jarr cards) => cards.all validFlashcard
     | _ => false) &&
    (match lookupF fs "mcqs" with
     | some (.jarr qs) => qs.all validMcq
     | _ => false)
  | _ => false

/-- Outcome of one solicitation of the model inside gen_stuff.generate_stuff:
generate_response followed by the code-fence stripping and json.loads.
parsed: a raw string came back and parsed to a JSON value.
parseFailed: json.loads raised json.JSONDecodeError with the given message.
otherFailed: some other exception was raised with the given message.
The raw string is kept because the error dicts embed it as raw_response. -/
inductive GenAttempt where
  | parsed (j : J) (raw : String)
  | parseFailed (msg : String) (raw : String)
  | otherFailed (msg : String) (raw : String)
deriving Repr

/-- Loop body of generate_stuff over the remaining attempt indices
(python: for attempt in range(3)).  Returns the result dict together with
the number of model solicitations performed. -/
def genTry (respond : Nat → GenAttempt) : List Nat → J × Nat
  | [] => (.jobj [("error", .jstr "Failed to generate response after 3 attempts")], 3)
  | attempt :: rest =>
    match respond attempt with
    | .parsed j raw =>
      if validate_response_structure j then (j, attempt + 1)
      else if attempt == 2 then
        (.jobj [("error", .jstr "Failed to generate valid JSON after 3 attempts"),
                ("raw_response", .jstr raw)], attempt + 1)
      else genTry respond rest
    | .parseFailed msg raw =>
      if attempt == 2 then
        (.jobj [("error", .jstr ("JSON parsing failed after 3 attempts: " ++ msg)),
                ("raw_response", .jstr raw)], attempt + 1)
      else genTry respond rest
    | .otherFailed msg raw =>
      if attempt == 2 then
        (.jobj [("error", .jstr ("Unexpected error after 3 attempts: " ++ msg)),
                ("raw_response", .jstr raw)], attempt + 1)
      else genTry respond rest

/-- Embedding of gen_stuff.generate_stuff, parametrized by the oracle
giving the outcome of each model solicitation.  max_attempts = 3. -/
def generate_stuff (respond : Nat → GenAttempt) : J × Nat :=
  genTry respond [0, 1, 2]

/-- Number of flashcards in a generator result. -/
def numFlashcards (j : J) : Nat :=
  match J.get j "flashcards" with
  | some (.jarr cards) => cards.length
  | _ => 0

/-- Number of MCQs in a generator result. -/
def numMcqs (j : J) : Nat :=
  match J.get j "mcqs" with
  | some (.jarr qs) => qs.length
  | _ => 0

/-! ## utils/mongodb.py -/

/-- Hexadecimal character test (for bson ObjectId strings). -/
def isHexChar (c : Char) : Bool :=
  c.isDigit || ('a' ≤ c && c ≤ 'f') || ('A' ≤ c && c ≤ 'F')

/-- Success of the bson ObjectId(x) conversion: for the values the worker
passes, it succeeds exactly on 24-character hexadecimal strings. -/
def isValidObjectId (j : J) : Bool :=
  match j with
  | .jstr s => s.length == 24 && s.toList.all isHexChar
  | _ => false

/-- python dict.get(k, default) on a JSON dict value. -/
def J.getD (j : J) (k : String) (d : J) : J :=
  (J.get j k).getD d

/-- Dollar-set document built by update_document_generated_content when
the generated data carries the error discriminant: all three status
fields FAILED, the error reason, and the update timestamp; no content
fields. -/
def failedUpdateDoc (generated_data : J) (now : Int) : List (String × J) :=
  [("summary_status", .jstr "FAILED"),
   ("flashcard_status", .jstr "FAILED"),
   ("mcq_status", .jstr "FAILED"),
   ("processing_error", J.getD generated_data "error" (.jstr "Unknown error")),
   ("updated_at", .jnum now)]

/-- Dollar-set document built by update_document_generated_content when
the generated data has no error discriminant: the three content fields
and all three status fields COMPLETED, plus the update timestamp. -/
def completedUpdateDoc (generated_data : J) (now : Int) : List (String × J) :=
  [("summary", J.getD generated_data "summary" (.jstr "")),
   ("flashcards", J.getD generated_data "flashcards" (.jarr [])),
   ("mcqs", J.getD generated_data "mcqs" (.jarr [])),
   ("summary_status", .jstr "COMPLETED"),
   ("flashcard_status", .jstr "COMPLETED"),
   ("mcq_status", .jstr "COMPLETED"),
   ("updated_at", .jnum now)]

/-- Embedding of MongoDBConnection.update_document_generated_content.
Inputs: the two ids as task values, the generator result dict, the wall
clock value used for updated_at, and an oracle telling whether the
collection update matched a record.  Output: the boolean return value
together with the list of update documents sent to the collection (so a
theorem can speak about how many updates happen and what they carry). -/
def update_document_generated_content (document_id user_id : J)
    (generated_data : J) (now : Int) (matched : Bool) :
    Bool × List (List (String × J)) :=
  if !(isValidObjectId document_id && isValidObjectId user_id) then
    (false, [])
  else
    let upd :=
      if J.hasKey generated_data "error" then failedUpdateDoc generated_data now
      else completedUpdateDoc generated_data now
    (matched, [upd])

/-! ## utils/youtube_lib.py -/

/-- Exceptions that the embedded code can raise past a pipeline. -/
inductive PyErr where
  | indexError
  | raised (msg : String)
deriving Repr, DecidableEq

/-- Embedding of youtube_lib.get_transcript.  The transcript API fetch is
an oracle from the video id to the fetched snippet texts; none covers
every exception the fetch can raise (TranscriptsDisabled included).  The
id extraction video_link.split("v=")[1].split("&")[0] happens before the
try block: on a link with no "v=" occurrence the index access raises
IndexError out of the function. -/
def get_transcript (fetchT : String → Option (List String))
    (video_link : String) : Except PyErr String :=
  match pySplit video_link "v=" with
  | _ :: p :: _ =>
    let video_id := (pySplit p "&").headD ""
    match fetchT video_id with
    | some snippets => .ok (String.intercalate " " snippets)
    | none => .ok ""
  | _ => .error .indexError

/-- The video id that get_transcript extracts from a wellformed link. -/
def videoIdOf (video_link : String) : String :=
  (pySplit ((pySplit video_link "v=").getD 1 "") "&").headD ""

/-- The transcript text get_transcript produces on the non-raising path:
the joined snippets on success, the empty string on any fetch failure. -/
def transcriptText (fetchT : String → Option (List String))
    (video_link : String) : String :=
  match fetchT (videoIdOf video_link) with
  | some snippets => String.intercalate " " snippets
  | none => ""

/-! ## utils/s3_client.py -/

/-- Configuration of the S3Client read from the environment.  publicUrl
is none when R2_PUBLIC_URL is unset or empty (python truthiness of
self.public_url). -/
structure S3Config where
  endpointUrl : String
  bucketName : String
  publicUrl : Option String

/-- Temp-file namespace used by tempfile.NamedTemporaryFile in the model:
the n-th temporary file created during a resolution.  The encoding is
injective by construction (the name length determines n), mirroring that
NamedTemporaryFile always hands out a name distinct from every existing
file. -/
def tempName (n : Nat) : String :=
  "tmp" ++ String.mk (List.replicate n 'x')

/-- Filesystem state relevant to the resolver: the names already created
and a counter giving the next fresh temporary name. -/
structure FS where
  nextId : Nat
  files : List String
deriving Repr, DecidableEq

/-- tempfile.NamedTemporaryFile(delete=False): creates a fresh file on
disk and hands back its path. -/
def mkTempFile (fs : FS) : String × FS :=
  (tempName fs.nextId, ⟨fs.nextId + 1, fs.files ++ [tempName fs.nextId]⟩)

/-- os.unlink guarded by os.path.exists: removes the file if present. -/
def unlinkFile (fs : FS) (p : String) : FS :=
  ⟨fs.nextId, fs.files.filter (fun q => q ≠ p)⟩

/-- Network-and-storage oracles of the resolver: success of the boto3
object fetch per key, and success of the streamed requests.get per URL. -/
structure S3Env where
  s3Succeeds : String → Bool
  httpSucceeds : String → Bool

/-- Calls the resolver makes to the outside world, in order. -/
inductive FetchCall where
  | s3get (key : String)
  | httpGet (url : String)
deriving Repr, DecidableEq

/-- Embedding of S3Client.extract_s3_key_from_url: if the URL starts with
the configured endpoint, the remaining path with leading slashes stripped
is the key, re-qualified under the bucket name when it does not already
start with it; otherwise no key. -/
def extract_s3_key_from_url (cfg : S3Config) (file_url : String) : Option String :=
  if pyStartsWith file_url cfg.endpointUrl then
    let s3_key := pyLstripChar (pyDrop file_url (pyLen cfg.endpointUrl)) '/'
    let s3_key :=
      if !pyStartsWith s3_key (cfg.bucketName ++ "/") then cfg.bucketName ++ "/" ++ s3_key
      else s3_key
    some s3_key
  else none

/-- Embedding of S3Client.download_file_from_s3: a fresh temporary file
is created, then the object is fetched into it.  On any fetch failure
(ClientError, NoCredentialsError, anything else) the function returns
none WITHOUT removing the temporary file it created. -/
def download_file_from_s3 (env : S3Env) (s3_key : String) (fs : FS) :
    Option String × FS × List FetchCall :=
  let (temp_file_path, fs2) := mkTempFile fs
  if env.s3Succeeds s3_key then (some temp_file_path, fs2, [.s3get s3_key])
  else (none, fs2, [.s3get s3_key])

/-- Embedding of S3Client._download_file_via_http: a fresh temporary file
is created, then the URL is streamed into it.  On any failure the
temporary file is unlinked before returning none. -/
def download_file_via_http (env : S3Env) (file_url : String) (fs : FS) :
    Option String × FS × List FetchCall :=
  let (temp_file_path, fs2) := mkTempFile fs
  if env.httpSucceeds file_url then (some temp_file_path, fs2, [.httpGet file_url])
  else (none, unlinkFile fs2 temp_file_path, [.httpGet file_url])

/-- Embedding of S3Client.download_file_from_url, the acquisition
resolver: derive a key and fetch via the storage API; else a direct HTTP
GET of the original URL; else, when an alternate public base and a key
are available, an HTTP GET of the rebuilt URL; none once everything
failed.  Returns the resolved path, the filesystem state and the ordered
list of outside calls. -/
def download_file_from_url (cfg : S3Config) (env : S3Env) (file_url : String)
    (fs : FS) : Option String × FS × List FetchCall :=
  let s3_key := extract_s3_key_from_url cfg file_url
  let step1 : Option String × FS × List FetchCall :=
    match s3_key with
    | some key => download_file_from_s3 env key fs
    | none => (none, fs, [])
  match step1 with
  | (some p, fs1, calls1) => (some p, fs1, calls1)
  | (none, fs1, calls1) =>
    let (r2, fs2, calls2) := download_file_via_http env file_url fs1
    match r2 with
    | some p => (some p, fs2, calls1 ++ calls2)
    | none =>
      match cfg.publicUrl, s3_key with
      | some pu, some key =>
        let alternative_url := pyRstripChar pu '/' ++ "/" ++ key
        let (r3, fs3, calls3) := download_file_via_http env alternative_url fs2
        (r3, fs3, calls1 ++ calls2 ++ calls3)
      | _, _ => (none, fs2, calls1 ++ calls2)

/-- The rebuilt alternate URL of strategy three. -/
def alternativeUrl (pu key : String) : String :=
  pyRstripChar pu '/' ++ "/" ++ key

/-! ## worker.py pipelines -/

/-- External collaborators of the four pipelines, as oracles.
fetchContent embeds mongodb.fetch_document_content, fetchFileUrl embeds
mongodb.fetch_document_file_url, downloadFile embeds
s3_client.download_file_from_url (returning the local path or none),
extractPdf embeds the joined pdf_processor.process_pdf page texts (and
may raise), transcriptF is the transcript API fetch used by
get_transcript, scrape embeds web_scrape.scrape_website (rendered
markdown), generate embeds gen_stuff.generate_stuff, update embeds
mongodb.update_document_content. -/
structure WorkerEnv where
  fetchContent : J → J → Option String
  fetchFileUrl : J → J → Option String
  downloadFile : String → Option String
  extractPdf : String → Except PyErr String
  transcriptF : String → Option (List String)
  scrape : String → String
  generate : String → J
  update : J → J → J → Bool

/-- One call made by a pipeline to a collaborator, recorded in order. -/
inductive Call where
  | fetchContent (documentId userId : J)
  | fetchFileUrl (documentId userId : J)
  | downloadFile (url : String)
  | s3BucketTest
  | extractPdf (path : String)
  | cleanupTemp (path : String)
  | scrape (url : String)
  | generate (text : String)
  | updateDoc (documentId userId : J) (data : J)
deriving Repr

/-- Observable outcome of one pipeline run: the failed results carry the
error string the code puts in the result dict; completed is the success
dict.  The remaining result fields (task id, thread id, timestamps) are
not modelled. -/
inductive PipeResult where
  | failed (error : String)
  | completed
deriving Repr, DecidableEq

/-- Embedding of worker.process_text_task.  A missing or falsy
documentId or userId short-circuits before any collaborator call. -/
def process_text_task (env : WorkerEnv) (task_data : J) :
    Except PyErr PipeResult × List Call :=
  let document_id := J.get task_data "documentId"
  let user_id := J.get task_data "userId"
  if !truthyOpt document_id || !truthyOpt user_id then
    (.ok (.failed "Missing documentId or userId"), [])
  else
    let d := document_id.getD .jnull
    let u := user_id.getD .jnull
    let content := env.fetchContent d u
    if !truthyStrOpt content then
      (.ok (.failed "Document not found or empty content"), [.fetchContent d u])
    else
      let c := content.getD ""
      let result_data := env.generate c
      let update_success := env.update d u result_data
      if !update_success then
        (.ok (.failed "Failed to update document in MongoDB"),
         [.fetchContent d u, .generate c, .updateDoc d u result_data])
      else
        (.ok .completed,
         [.fetchContent d u, .generate c, .updateDoc d u result_data])

/-- Embedding of worker.process_pdf_task: validate the ids, fetch the
file URL, resolve it to a local file, extract the page text (with the
temporary file cleaned up in the finally block even when extraction
raises), then generate and persist. -/
def process_pdf_task (env : WorkerEnv) (task_data : J) :
    Except PyErr PipeResult × List Call :=
  let document_id := J.get task_data "documentId"
  let user_id := J.get task_data "userId"
  if !truthyOpt document_id || !truthyOpt user_id then
    (.ok (.failed "Missing documentId or userId"), [])
  else
    let d := document_id.getD .jnull
    let u := user_id.getD .jnull
    let file_url := env.fetchFileUrl d u
    if !truthyStrOpt file_url then
      (.ok (.failed "File URL not found in document"), [.fetchFileUrl d u])
    else
      let url := file_url.getD ""
      let temp_pdf_path := env.downloadFile url
      if !truthyStrOpt temp_pdf_path then
        (.ok (.failed "Failed to download PDF file"),
         [.fetchFileUrl d u, .downloadFile url, .s3BucketTest])
      else
        let path := temp_pdf_path.getD ""
        match env.extractPdf path with
        | .error e =>
          (.error e,
           [.fetchFileUrl d u, .downloadFile url, .extractPdf path, .cleanupTemp path])
        | .ok content =>
          if content == "" then
            (.ok (.failed "Document not found or empty content"),
             [.fetchFileUrl d u, .downloadFile url, .extractPdf path, .cleanupTemp path])
          else
            let result_data := env.generate content
            let update_success := env.update d u result_data
            if !update_success then
              (.ok (.failed "Failed to update document in MongoDB"),
               [.fetchFileUrl d u, .downloadFile url, .extractPdf path,
                .cleanupTemp path, .generate content, .updateDoc d u result_data])
            else
              (.ok .completed,
               [.fetchFileUrl d u, .downloadFile url, .extractPdf path,
                .cleanupTemp path, .generate content, .updateDoc d u result_data])

/-- Embedding of worker.process_youtube_video: validate the ids, fetch
the document content, run get_transcript on it (which can raise
IndexError past the pipeline), then generate from the transcript and
persist. -/
def process_youtube_video (env : WorkerEnv) (task_data : J) :
    Except PyErr PipeResult × List Call :=
  let document_id := J.get task_data "documentId"
  let user_id := J.get task_data "userId"
  if !truthyOpt document_id || !truthyOpt user_id then
    (.ok (.failed "Missing documentId or userId"), [])
  else
    let d := document_id.getD .jnull
    let u := user_id.getD .jnull
    let content := env.fetchContent d u
    if !truthyStrOpt content then
      (.ok (.failed "Document not found or empty content"), [.fetchContent d u])
    else
      let c := content.getD ""
      match get_transcript env.transcriptF c with
      | .error e => (.error e, [.fetchContent d u])
      | .ok transcript =>
        let result_data := env.generate transcript
        let update_success := env.update d u result_data
        if !update_success then
          (.ok (.failed "Failed to update document in MongoDB"),
           [.fetchContent d u, .generate transcript, .updateDoc d u result_data])
        else
          (.ok .completed,
           [.fetchContent d u, .generate transcript, .updateDoc d u result_data])

/-- The URL the website pipeline actually scrapes: a constant written
into worker.process_website_task. -/
def scrapeTargetUrl : String :=
  "https://www.geeksforgeeks.org/dsa/array-data-structure-guide/"

/-- Embedding of worker.process_website_task: validate the ids, fetch
the document content, then scrape scrapeTargetUrl (the fetched content is
not used as the scrape target), generate from the rendered text and
persist. -/
def process_website_task (env : WorkerEnv) (task_data : J) :
    Except PyErr PipeResult × List Call :=
  let document_id := J.get task_data "documentId"
  let user_id := J.get task_data "userId"
  if !truthyOpt document_id || !truthyOpt user_id then
    (.ok (.failed "Missing documentId or userId"), [])
  else
    let d := document_id.getD .jnull
    let u := user_id.getD .jnull
    let content := env.fetchContent d u
    if !truthyStrOpt content then
      (.ok (.failed "Document not found or empty content"), [.fetchContent d u])
    else
      let scraped_content := env.scrape scrapeTargetUrl
      let result_data := env.generate scraped_content
      let update_success := env.update d u result_data
      if !update_success then
        (.ok (.failed "Failed to update document in MongoDB"),
         [.fetchContent d u, .scrape scrapeTargetUrl,
          .generate scraped_content, .updateDoc d u result_data])
      else
        (.ok .completed,
         [.fetchContent d u, .scrape scrapeTargetUrl,
          .generate scraped_content, .updateDoc d u result_data])

/-! ## worker.py dispatcher (process_task and the dedup set) -/

/-- Membership in the process-wide processed_tasks set (python
`task_hash in processed_tasks`).  The set is modelled as a list kept
duplicate-free by the membership guard in process_task. -/
def setHas (s : List J) (x : J) : Bool :=
  s.any (fun y => J.beq x y)

/-- processed_tasks.discard(x): removes the entry equal to x. -/
def setRemove (s : List J) (x : J) : List J :=
  s.filter (fun y => !(J.beq x y))

/-- Observable outcome of one process_task run. -/
inductive Outcome where
  | skipped
  | done (r : PipeResult)
  | unknownQueue
  | errored (e : PyErr)
deriving Repr, DecidableEq

/-- Routing of a queue name to its pipeline, from the if-elif chain in
worker.process_task; none is the unknown-queue else branch. -/
def routeTask (env : WorkerEnv) (queue_name : String) (task_data : J) :
    Option (Except PyErr PipeResult × List Call) :=
  if queue_name == "process-pdf" then some (process_pdf_task env task_data)
  else if queue_name == "process-text" then some (process_text_task env task_data)
  else if queue_name == "process-ytvideo" then some (process_youtube_video env task_data)
  else if queue_name == "process-website" then some (process_website_task env task_data)
  else none

/-- Embedding of worker.process_task.  The payload fingerprint (the
canonical form of the task) is looked up and inserted under the single
lock before any routing; a present fingerprint skips the task entirely.
An exception escaping the routed pipeline is caught and discards the
fingerprint; every non-raising path (completed results, failed results,
unknown queues) keeps it. -/
def process_task (env : WorkerEnv) (processed : List J) (queue_name : String)
    (task_data : J) : List J × Outcome × List Call :=
  let task_hash := canon task_data
  if setHas processed task_hash then (processed, .skipped, [])
  else
    let processed1 := processed ++ [task_hash]
    match routeTask env queue_name task_data with
    | none => (processed1, .unknownQueue, [])
    | some (.ok r, calls) => (processed1, .done r, calls)
    | some (.error e, calls) => (setRemove processed1 task_hash, .errored e, calls)

/-- Folding process_task over a sequence of later (queue, task) arrivals,
tracking only the dedup set. -/
def run_tasks (env : WorkerEnv) (processed : List J) :
    List (String × J) → List J
  | [] => processed
  | (q, t) :: rest => run_tasks env (process_task env processed q t).1 rest

/-! ## worker.py dispatcher pool (concurrent.futures.ThreadPoolExecutor) -/

/-- State of the queue.SimpleQueue work queue inside the executor.  A
SimpleQueue has no capacity bound, recorded as capacity none; put blocks
only on a bounded queue that is full. -/
structure WorkQueue where
  capacity : Option Nat
  items : List Nat
deriving Repr, DecidableEq

/-- Whether a put into the work queue blocks the caller: never for an
unbounded queue, and for a bounded queue exactly when it is full. -/
def putBlocks (q : WorkQueue) : Bool :=
  match q.capacity with
  | none => false
  | some c => decide (c ≤ q.items.length)

/-- State of ThreadPoolExecutor(max_workers=N): the bound, the work
queue, the number of spawned worker threads, and how many of them are
currently executing a task. -/
structure ThreadPool where
  maxWorkers : Nat
  workQueue : WorkQueue
  numThreads : Nat
  runningTasks : Nat
deriving Repr, DecidableEq

/-- ThreadPoolExecutor(max_workers=n) as built by worker.start_worker:
no thread yet, and an unbounded SimpleQueue as the work queue. -/
def mkThreadPool (max_workers : Nat) : ThreadPool :=
  ⟨max_workers, ⟨none, []⟩, 0, 0⟩

/-- Whether executor.submit blocks its caller: submit only performs a
put on the work queue (plus thread bookkeeping), so it blocks exactly
when that put does. -/
def submitBlocks (p : ThreadPool) : Bool :=
  putBlocks p.workQueue

/-- executor.submit(fn, ...): append the work item to the work queue and
spawn one more worker thread when still under max_workers; the call then
returns to the caller. -/
def submit (p : ThreadPool) (t : Nat) : ThreadPool :=
  let p2 := { p with workQueue := { p.workQueue with items := p.workQueue.items ++ [t] } }
  if p2.numThreads < p2.maxWorkers then { p2 with numThreads := p2.numThreads + 1 }
  else p2

/-- Whether an idle worker thread can pick the next queued item up: it
needs a thread that is not already running a task, and a pending item. -/
def canStartNext (p : ThreadPool) : Bool :=
  decide (p.runningTasks < p.numThreads) && !p.workQueue.items.isEmpty

/-- An idle worker thread dequeues the next work item and starts
executing it (the get side of the worker loop). -/
def startNext (p : ThreadPool) : ThreadPool :=
  if canStartNext p then
    { p with workQueue := { p.workQueue with items := p.workQueue.items.tail },
             runningTasks := p.runningTasks + 1 }
  else p

/-- A running task finishes, freeing its worker thread. -/
def completeTask (p : ThreadPool) : ThreadPool :=
  { p with runningTasks := p.runningTasks - 1 }

/-! ## Derived observations used in theorem statements -/

/-- The scrape targets appearing in a pipeline call trace, in order. -/
def scrapeCalls (l : List Call) : List String :=
  l.filterMap (fun c => match c with | .scrape u => some u | _ => none)

/-- A task field is missing or is the empty string. -/
def missingOrEmpty (o : Option J) : Prop :=
  o = none ∨ o = some (.jstr "")

/-! ## Concrete fixtures for witnesses and counterexamples -/

/-- A wellformed 24-character hexadecimal document id. -/
def hexDocId : String := "0123456789abcdef01234567"

/-- A wellformed 24-character hexadecimal user id. -/
def hexUserId : String := "89abcdef0123456789abcdef"

/-- The document id as a task value. -/
def cDoc : J := .jstr hexDocId

/-- The user id as a task value. -/
def cUser : J := .jstr hexUserId

/-- A task payload with both ids present and truthy. -/
def cTask : J := .jobj [("documentId", cDoc), ("userId", cUser)]

/-- A collaborator environment where every call succeeds. -/
def cEnv : WorkerEnv where
  fetchContent := fun _ _ => some "Mitochondria produce ATP."
  fetchFileUrl := fun _ _ => some "https://ep.example/bucket/doc.pdf"
  downloadFile := fun _ => some "tmpA"
  extractPdf := fun _ => .ok "pdf text"
  transcriptF := fun _ => some ["hello", "world"]
  scrape := fun u => "rendered:" ++ u
  generate := fun t => .jobj
    [("summary", .jstr t), ("flashcards", .jarr []), ("mcqs", .jarr [])]
  update := fun _ _ _ => true

/-- cEnv with the stored document content being a website URL. -/
def cEnvWebsite : WorkerEnv :=
  { cEnv with fetchContent := fun _ _ => some "https://example.com/a" }

/-- cEnv with a pdf extraction that raises. -/
def cEnvRaise : WorkerEnv :=
  { cEnv with extractPdf := fun _ => .error (.raised "boom") }

/-- cEnv with the stored document content being a watch link, and a
transcript fetch that always fails. -/
def cEnvVideo : WorkerEnv :=
  { cEnv with fetchContent := fun _ _ => some "https://www.youtube.com/watch?v=abc123&t=4",
              transcriptF := fun _ => none }

/-- cEnv with stored content that is not a wellformed watch link, and a
transcript fetch that always fails. -/
def cEnvNoV : WorkerEnv :=
  { cEnv with fetchContent := fun _ _ => some "https://example.com/page",
              transcriptF := fun _ => none }

/-- A task payload without a userId field. -/
def cTaskNoUser : J := .jobj [("documentId", .jstr "d")]

/-- A resolver configuration with endpoint, bucket and public base. -/
def cCfg : S3Config := ⟨"https://ep.example", "bucket", some "https://pub.example"⟩

/-- Resolver oracles where every strategy fails. -/
def cS3AllFail : S3Env := ⟨fun _ => false, fun _ => false⟩

/-- Resolver oracles where the storage fetch fails and HTTP succeeds. -/
def cS3HttpOk : S3Env := ⟨fun _ => false, fun _ => true⟩

/-- An empty filesystem state. -/
def cFS : FS := ⟨0, []⟩

/-- A file URL under the configured endpoint. -/
def cUrl : String := "https://ep.example/bucket/doc.pdf"

/-- A wellformed MCQ entry. -/
def cMcq : J := .jobj
  [("question", .jstr "Q"),
   ("options", .jobj [("A", .jstr "a"), ("B", .jstr "b"), ("C", .jstr "c"), ("D", .jstr "d")]),
   ("correct_answer", .jstr "A")]

/-- A generator response that passes validate_response_structure while
carrying zero flashcards. -/
def cZeroCardArtifact : J := .jobj
  [("summary", .jstr "S"), ("flashcards", .jarr []), ("mcqs", .jarr [cMcq])]

/-- A model oracle that always returns cZeroCardArtifact. -/
def cRespondZero : Nat → GenAttempt := fun _ => .parsed cZeroCardArtifact "raw"

/-- A generator result carrying the error discriminant. -/
def cErrResult : J := .jobj [("error", .jstr "x")]

/-- The saturated pool: four tasks submitted to a pool of four slots and
all four picked up by worker threads. -/
def cPoolSaturated : ThreadPool :=
  startNext (submit (startNext (submit (startNext (submit (startNext
    (submit (mkThreadPool 4) 1)) 2)) 3)) 4)

/-! ## Helper lemmas -/

mutual
theorem J.beq_refl : ∀ x : J, J.beq x x = true
  | .jnull => rfl
  | .jbool b => by simp [J.beq]
  | .jnum n => by simp [J.beq]
  | .jstr s => by simp [J.beq]
  | .jarr xs => by rw [J.beq]; exact J.beqList_refl xs
  | .jobj fs => by rw [J.beq]; exact J.beqFields_refl fs

theorem J.beqList_refl : ∀ xs : List J, J.beqList xs xs = true
  | [] => rfl
  | x :: xs => by rw [J.beqList]; simp [J.beq_refl x, J.beqList_refl xs]

theorem J.beqFields_refl : ∀ fs : List (String × J), J.beqFields fs fs = true
  | [] => rfl
  | (k, v) :: fs => by rw [J.beqFields]; simp [J.beq_refl v, J.beqFields_refl fs]
end

theorem setHas_append_self (s : List J) (x : J) : setHas (s ++ [x]) x = true := by
  simp [setHas, List.any_append, J.beq_refl]

theorem setHas_append_mono (s : List J) (y x : J) (h : setHas s x = true) :
    setHas (s ++ [y]) x = true := by
  simp only [setHas] at h
  simp [setHas, List.any_append, h]

theorem beq_false_of_not_has {s : List J} {x y : J} (h : setHas s x = false)
    (hy : y ∈ s) : J.beq x y = false := by
  simp only [setHas, List.any_eq_false] at h
  simpa using h y hy

theorem setRemove_append_self (s : List J) (x : J) (h : setHas s x = false) :
    setRemove (s ++ [x]) x = s := by
  simp only [setRemove, List.filter_append]
  have h1 : List.filter (fun y => !J.beq x y) [x] = [] := by
    simp [List.filter, J.beq_refl]
  have h2 : List.filter (fun y => !J.beq x y) s = s := by
    apply List.filter_eq_self.mpr
    intro y hy
    simp [beq_false_of_not_has h hy]
  rw [h1, h2, List.append_nil]

theorem setHas_process_task (env : WorkerEnv) (s : List J) (q : String) (t : J)
    (x : J) (h : setHas s x = true) : setHas (process_task env s q t).1 x = true := by
  unfold process_task
  by_cases hskip : setHas s (canon t) = true
  · simp [hskip, h]
  · replace hskip : setHas s (canon t) = false := by
      simpa using hskip
    rcases hroute : routeTask env q t with _ | ⟨res, calls⟩
    · simp [hskip, hroute, setHas_append_mono s (canon t) x h]
    · cases res with
      | ok r => simp [hskip, hroute, setHas_append_mono s (canon t) x h]
      | error e => simp [hskip, hroute, setRemove_append_self s (canon t) hskip, h]

theorem setHas_run_tasks (env : WorkerEnv) (x : J) :
    ∀ (l : List (String × J)) (s : List J), setHas s x = true →
      setHas (run_tasks env s l) x = true
  | [], _, h => h
  | (q, t) :: rest, s, h =>
    setHas_run_tasks env x rest ((process_task env s q t).1)
      (setHas_process_task env s q t x h)

theorem process_task_skip (env : WorkerEnv) (s : List J) (q : String) (t : J)
    (h : setHas s (canon t) = true) :
    process_task env s q t = (s, .skipped, []) := by
  unfold process_task
  simp [h]

/-! ## Claim theorems -/

/-- C1: process_task adds the payload fingerprint to the in-flight set
before routing and skips any task whose fingerprint is already present;
the fingerprint stays in the set on every normal completion of the routed
pipeline (failed-status results included) and is removed exactly when an
exception escapes the pipeline; therefore once a task completes normally,
every later task with the same fingerprint is skipped for the rest of the
process lifetime. -/
theorem C1_dedup_lifecycle (env : WorkerEnv) (s : List J) (q : String) (t : J) :
    (setHas s (canon t) = true → process_task env s q t = (s, .skipped, []))
  ∧ (∀ r, (process_task env s q t).2.1 = .done r →
      setHas (process_task env s q t).1 (canon t) = true)
  ∧ (∀ e, (process_task env s q t).2.1 = .errored e → setHas s (canon t) = false →
      (process_task env s q t).1 = s)
  ∧ (∀ r, (process_task env s q t).2.1 = .done r →
      ∀ l q2 t2, canon t2 = canon t →
        (process_task env (run_tasks env (process_task env s q t).1 l) q2 t2).2.1 =
          .skipped) := by
  have hdone : ∀ r, (process_task env s q t).2.1 = .done r →
      setHas (process_task env s q t).1 (canon t) = true := by
    intro r h
    by_cases hskip : setHas s (canon t) = true
    · rw [process_task_skip env s q t hskip] at h
      simp at h
    · replace hskip : setHas s (canon t) = false := by simpa using hskip
      rcases hroute : routeTask env q t with _ | ⟨res, calls⟩
      · unfold process_task at h
        simp [hskip, hroute] at h
      · cases res with
        | ok r2 =>
          unfold process_task
          simp [hskip, hroute, setHas_append_self]
        | error e =>
          unfold process_task at h
          simp [hskip, hroute] at h
  refine ⟨process_task_skip env s q t, hdone, ?_, ?_⟩
  · intro e h hnew
    rcases hroute : routeTask env q t with _ | ⟨res, calls⟩
    · unfold process_task at h
      simp [hnew, hroute] at h
    · cases res with
      | ok r2 =>
        unfold process_task at h
        simp [hnew, hroute] at h
      | error e2 =>
        unfold process_task
        simp [hnew, hroute, setRemove_append_self s (canon t) hnew]
  · intro r h l q2 t2 ht
    have hmem : setHas (run_tasks env (process_task env s q t).1 l) (canon t2) = true := by
      rw [ht]
      exact setHas_run_tasks env (canon t) l _ (hdone r h)
    rw [process_task_skip env _ q2 t2 hmem]

/-- C1 witness: on concrete inputs, a task whose fingerprint is already
present is skipped, and a task that completed normally is skipped when it
arrives again later, on a different queue, after further traffic. -/
theorem C1_dedup_lifecycle_witness :
    process_task cEnv [canon cTask] "process-text" cTask = ([canon cTask], .skipped, [])
  ∧ (process_task cEnv (run_tasks cEnv (process_task cEnv [] "process-text" cTask).1
      [("process-pdf", cTask)]) "process-ytvideo" cTask).2.1 = .skipped := by
  refine ⟨(C1_dedup_lifecycle cEnv [canon cTask] "process-text" cTask).1 (by rfl), ?_⟩
  exact (C1_dedup_lifecycle cEnv [] "process-text" cTask).2.2.2 PipeResult.completed
    (by rfl) [("process-pdf", cTask)] "process-ytvideo" cTask rfl

/-- C10: a task arriving on an unknown queue still gets its fingerprint
added to the in-flight set, runs no pipeline, raises nothing and makes no
collaborator call, and the fingerprint is never removed, so any later
structurally identical payload is skipped on every queue. -/
theorem C10_unknown_queue_consumes (env : WorkerEnv) (s : List J) (q : String) (t : J)
    (hq : q ≠ "process-pdf" ∧ q ≠ "process-text" ∧ q ≠ "process-ytvideo" ∧
          q ≠ "process-website")
    (hnew : setHas s (canon t) = false) :
    process_task env s q t = (s ++ [canon t], .unknownQueue, [])
  ∧ (∀ l q2 t2, canon t2 = canon t →
      (process_task env (run_tasks env (s ++ [canon t]) l) q2 t2).2.1 = .skipped) := by
  have hroute : routeTask env q t = none := by
    unfold routeTask
    simp [hq.1, hq.2.1, hq.2.2.1, hq.2.2.2]
  constructor
  · unfold process_task
    simp [hnew, hroute]
  · intro l q2 t2 ht
    have hmem : setHas (run_tasks env (s ++ [canon t]) l) (canon t2) = true := by
      rw [ht]
      exact setHas_run_tasks env (canon t) l _ (setHas_append_self s (canon t))
    rw [process_task_skip env _ q2 t2 hmem]

/-- C10 witness: a concrete task on a queue outside the four known names
is consumed without routing, and resubmitting the same payload on a real
queue afterwards is skipped. -/
theorem C10_unknown_queue_consumes_witness :
    process_task cEnv [] "unknown-queue" cTask = ([canon cTask], .unknownQueue, [])
  ∧ (process_task cEnv (run_tasks cEnv [canon cTask] []) "process-text" cTask).2.1 =
      .skipped := by
  have h := C10_unknown_queue_consumes cEnv [] "unknown-queue" cTask
    (by refine ⟨?_, ?_, ?_, ?_⟩ <;> decide) rfl
  exact ⟨h.1, h.2 [] "process-text" cTask rfl⟩

/-- C3: on a task whose stored document content is a website URL, the
website pipeline scrapes the constant scrapeTargetUrl instead of the URL
read from the document record: the scrape trace of the run names exactly
the constant URL, which differs from the stored content. -/
theorem C3_website_scrapes_constant :
    scrapeCalls (process_website_task cEnvWebsite cTask).2 = [scrapeTargetUrl]
  ∧ cEnvWebsite.fetchContent cDoc cUser = some "https://example.com/a"
  ∧ scrapeTargetUrl ≠ "https://example.com/a" := by
  refine ⟨by rfl, by rfl, by decide⟩

/-- C4: in each of the four pipelines, a task whose documentId or userId
is missing or empty returns the validation failure result and invokes no
collaborator at all. -/
theorem C4_validation_short_circuits (env : WorkerEnv) (task : J)
    (h : missingOrEmpty (J.get task "documentId") ∨ missingOrEmpty (J.get task "userId")) :
    process_text_task env task = (.ok (.failed "Missing documentId or userId"), [])
  ∧ process_pdf_task env task = (.ok (.failed "Missing documentId or userId"), [])
  ∧ process_youtube_video env task = (.ok (.failed "Missing documentId or userId"), [])
  ∧ process_website_task env task = (.ok (.failed "Missing documentId or userId"), []) := by
  have hcond : (!truthyOpt (J.get task "documentId") || !truthyOpt (J.get task "userId")) = true := by
    rcases h with (h | h) | (h | h) <;> simp [h, truthyOpt, truthy]
  refine ⟨?_, ?_, ?_, ?_⟩ <;>
    simp [process_text_task, process_pdf_task, process_youtube_video,
          process_website_task, hcond]

/-- C4 witness: a concrete task without a userId field short-circuits the
text and website pipelines with the validation failure and no calls. -/
theorem C4_validation_short_circuits_witness :
    process_text_task cEnv cTaskNoUser = (.ok (.failed "Missing documentId or userId"), [])
  ∧ process_website_task cEnv cTaskNoUser =
      (.ok (.failed "Missing documentId or userId"), []) := by
  have h := C4_validation_short_circuits cEnv cTaskNoUser (Or.inr (Or.inl rfl))
  exact ⟨h.1, h.2.2.2⟩

/-- C7: with ids the store accepts, the persist call sends exactly one
update document; when the generator result carries the error
discriminant that update sets all three statuses FAILED together with
the error reason and contains no summary/flashcards/mcqs key, and when it
does not, the one update sets all three statuses COMPLETED together with
the three content fields. -/
theorem C7_persist_update_shape (document_id user_id data : J) (now : Int)
    (matched : Bool)
    (hd : isValidObjectId document_id = true) (hu : isValidObjectId user_id = true) :
    (update_document_generated_content document_id user_id data now matched).2.length = 1
  ∧ (J.hasKey data "error" = true →
      ∀ upd ∈ (update_document_generated_content document_id user_id data now matched).2,
        lookupF upd "summary_status" = some (.jstr "FAILED") ∧
        lookupF upd "flashcard_status" = some (.jstr "FAILED") ∧
        lookupF upd "mcq_status" = some (.jstr "FAILED") ∧
        lookupF upd "processing_error" = some (J.getD data "error" (.jstr "Unknown error")) ∧
        lookupF upd "summary" = none ∧
        lookupF upd "flashcards" = none ∧
        lookupF upd "mcqs" = none)
  ∧ (J.hasKey data "error" = false →
      ∀ upd ∈ (update_document_generated_content document_id user_id data now matched).2,
        lookupF upd "summary_status" = some (.jstr "COMPLETED") ∧
        lookupF upd "flashcard_status" = some (.jstr "COMPLETED") ∧
        lookupF upd "mcq_status" = some (.jstr "COMPLETED") ∧
        lookupF upd "summary" = some (J.getD data "summary" (.jstr "")) ∧
        lookupF upd "flashcards" = some (J.getD data "flashcards" (.jarr [])) ∧
        lookupF upd "mcqs" = some (J.getD data "mcqs" (.jarr []))) := by
  by_cases he : J.hasKey data "error" = true
  · have hval : update_document_generated_content document_id user_id data now matched =
        (matched, [failedUpdateDoc data now]) := by
      unfold update_document_generated_content
      simp [hd, hu, he]
    rw [hval]
    refine ⟨rfl, ?_, ?_⟩
    · intro _ upd hupd
      rw [List.mem_singleton] at hupd
      subst hupd
      refine ⟨rfl, rfl, rfl, rfl, rfl, rfl, rfl⟩
    · intro hne
      rw [he] at hne
      cases hne
  · replace he : J.hasKey data "error" = false := by simpa using he
    have hval : update_document_generated_content document_id user_id data now matched =
        (matched, [completedUpdateDoc data now]) := by
      unfold update_document_generated_content
      simp [hd, hu, he]
    rw [hval]
    refine ⟨rfl, ?_, ?_⟩
    · intro htrue
      rw [he] at htrue
      cases htrue
    · intro _ upd hupd
      rw [List.mem_singleton] at hupd
      subst hupd
      refine ⟨rfl, rfl, rfl, rfl, rfl, rfl⟩

/-- C7 witness: on a concrete error result, the persist call sends one
update that has the FAILED summary status and no summary content key. -/
theorem C7_persist_update_shape_witness :
    (update_document_generated_content cDoc cUser cErrResult 0 true).2.length = 1
  ∧ (∀ upd ∈ (update_document_generated_content cDoc cUser cErrResult 0 true).2,
      lookupF upd "summary" = none ∧
      lookupF upd "summary_status" = some (.jstr "FAILED")) := by
  have h := C7_persist_update_shape cDoc cUser cErrResult 0 true rfl rfl
  refine ⟨h.1, fun upd hupd => ?_⟩
  have h2 := h.2.1 rfl upd hupd
  exact ⟨h2.2.2.2.2.1, h2.1⟩

theorem genTry_le (respond : Nat → GenAttempt) :
    ∀ l : List Nat, (∀ a ∈ l, a + 1 ≤ 3) → (genTry respond l).2 ≤ 3 := by
  intro l
  induction l with
  | nil => intro _; simp [genTry]
  | cons a rest ih =>
    intro hb
    have ha : a + 1 ≤ 3 := hb a (List.mem_cons_self a rest)
    have hrest : ∀ b ∈ rest, b + 1 ≤ 3 := fun b hb2 => hb b (List.mem_cons_of_mem a hb2)
    simp only [genTry]
    rcases respond a with ⟨j, raw⟩ | ⟨m, raw⟩ | ⟨m, raw⟩
    · by_cases hv : validate_response_structure j = true
      · simpa [hv] using ha
      · by_cases h2 : (a == 2) = true
        · replace hv : validate_response_structure j = false := by simpa using hv
          simpa [hv, h2] using ha
        · replace hv : validate_response_structure j = false := by simpa using hv
          replace h2 : (a == 2) = false := by simpa using h2
          simpa [hv, h2] using ih hrest
    · by_cases h2 : (a == 2) = true
      · simpa [h2] using ha
      · replace h2 : (a == 2) = false := by simpa using h2
        simpa [h2] using ih hrest
    · by_cases h2 : (a == 2) = true
      · simpa [h2] using ha
      · replace h2 : (a == 2) = false := by simpa using h2
        simpa [h2] using ih hrest

theorem genTry_no_error_valid (respond : Nat → GenAttempt) :
    ∀ l : List Nat,
      J.hasKey (genTry respond l).1 "error" = false →
      validate_response_structure (genTry respond l).1 = true := by
  intro l
  induction l with
  | nil =>
    intro h
    exfalso
    simp +decide [genTry, J.hasKey, hasKeyF, lookupF] at h
  | cons a rest ih =>
    simp only [genTry]
    rcases respond a with ⟨j, raw⟩ | ⟨m, raw⟩ | ⟨m, raw⟩
    · by_cases hv : validate_response_structure j = true
      · intro _
        simp [hv]
      · replace hv : validate_response_structure j = false := by simpa using hv
        by_cases h2 : (a == 2) = true
        · intro h
          exfalso
          simp +decide [hv, h2, J.hasKey, hasKeyF, lookupF] at h
        · replace h2 : (a == 2) = false := by simpa using h2
          intro h
          simp only [hv, Bool.false_eq_true, if_false, h2] at h ⊢
          exact ih h
    · by_cases h2 : (a == 2) = true
      · intro h
        exfalso
        simp +decide [h2, J.hasKey, hasKeyF, lookupF] at h
      · replace h2 : (a == 2) = false := by simpa using h2
        intro h
        simp only [h2, Bool.false_eq_true, if_false] at h ⊢
        exact ih h
    · by_cases h2 : (a == 2) = true
      · intro h
        exfalso
        simp +decide [h2, J.hasKey, hasKeyF, lookupF] at h
      · replace h2 : (a == 2) = false := by simpa using h2
        intro h
        simp only [h2, Bool.false_eq_true, if_false] at h ⊢
        exact ih h

/-- C8 (amended): generate_stuff performs at most three model
solicitations and every result without the error discriminant passes the
structural validation, which guarantees a non-blank string summary,
flashcards that all carry string front and back fields, and MCQs that all
carry a question, options A through D and a correct answer among those
labels; the validation places no bound on how many flashcards or MCQs
the result holds. -/
theorem C8_generator_contract (respond : Nat → GenAttempt) :
    (generate_stuff respond).2 ≤ 3
  ∧ (J.hasKey (generate_stuff respond).1 "error" = false →
      validate_response_structure (generate_stuff respond).1 = true)
  ∧ (∀ r : J, validate_response_structure r = true →
      (∃ s, J.get r "summary" = some (.jstr s) ∧ strippedNonempty s = true)
    ∧ (∃ cards, J.get r "flashcards" = some (.jarr cards) ∧
        cards.all validFlashcard = true)
    ∧ (∃ qs, J.get r "mcqs" = some (.jarr qs) ∧ qs.all validMcq = true)) := by
  refine ⟨genTry_le respond [0, 1, 2] (by decide),
          genTry_no_error_valid respond [0, 1, 2], ?_⟩
  intro r hr
  cases r with
  | jobj fs =>
    simp only [validate_response_structure, Bool.and_eq_true] at hr
    obtain ⟨⟨⟨hk, hs⟩, hf⟩, hm⟩ := hr
    refine ⟨?_, ?_, ?_⟩
    · rcases hls : lookupF fs "summary" with _ | v
      · rw [hls] at hs; simp at hs
      · cases v with
        | jstr s =>
          rw [hls] at hs
          exact ⟨s, by simp [J.get, hls], by simpa using hs⟩
        | jnull => rw [hls] at hs; simp at hs
        | jbool b => rw [hls] at hs; simp at hs
        | jnum n => rw [hls] at hs; simp at hs
        | jarr xs => rw [hls] at hs; simp at hs
        | jobj fs2 => rw [hls] at hs; simp at hs
    · rcases hls : lookupF fs "flashcards" with _ | v
      · rw [hls] at hf; simp at hf
      · cases v with
        | jarr cards =>
          rw [hls] at hf
          exact ⟨cards, by simp [J.get, hls], by simpa using hf⟩
        | jnull => rw [hls] at hf; simp at hf
        | jbool b => rw [hls] at hf; simp at hf
        | jnum n => rw [hls] at hf; simp at hf
        | jstr s => rw [hls] at hf; simp at hf
        | jobj fs2 => rw [hls] at hf; simp at hf
    · rcases hls : lookupF fs "mcqs" with _ | v
      · rw [hls] at hm; simp at hm
      · cases v with
        | jarr qs =>
          rw [hls] at hm
          exact ⟨qs, by simp [J.get, hls], by simpa using hm⟩
        | jnull => rw [hls] at hm; simp at hm
        | jbool b => rw [hls] at hm; simp at hm
        | jnum n => rw [hls] at hm; simp at hm
        | jstr s => rw [hls] at hm; simp at hm
        | jobj fs2 => rw [hls] at hm; simp at hm
  | jnull => simp [validate_response_structure] at hr
  | jbool b => simp [validate_response_structure] at hr
  | jnum n => simp [validate_response_structure] at hr
  | jstr s => simp [validate_response_structure] at hr
  | jarr xs => simp [validate_response_structure] at hr

/-- C8 witness: on the concrete oracle the generator returns after one
solicitation a result without the error key that passes validation. -/
theorem C8_generator_contract_witness :
    (generate_stuff cRespondZero).2 ≤ 3
  ∧ validate_response_structure (generate_stuff cRespondZero).1 = true := by
  have h := C8_generator_contract cRespondZero
  exact ⟨h.1, h.2.1 rfl⟩

/-- C8 counterexample: the oracle returning a response with zero
flashcards yields a non-error generator result with zero flashcards, so
generator results do not always carry between one and ten flashcards. -/
theorem C8_zero_flashcards_accepted :
    J.hasKey (generate_stuff cRespondZero).1 "error" = false
  ∧ (generate_stuff cRespondZero).2 = 1
  ∧ numFlashcards (generate_stuff cRespondZero).1 = 0 :=
  ⟨rfl, rfl, rfl⟩

/-- C9 (amended): for every content string in which the marker v= occurs
(so the index access in the id extraction succeeds), get_transcript never
raises: it returns the joined snippets, and the empty string on any
transcript-fetch failure; in the video pipeline that (possibly empty)
text is what gets handed to the generator.  The id extraction itself sits
before the try block and raises on content without the marker. -/
theorem C9_transcript_degrades_to_empty (fetchT : String → Option (List String))
    (link : String) (h : 2 ≤ (pySplit link "v=").length) :
    get_transcript fetchT link = .ok (transcriptText fetchT link)
  ∧ (fetchT (videoIdOf link) = none → get_transcript fetchT link = .ok "")
  ∧ (∀ env : WorkerEnv, ∀ task : J,
      env.transcriptF = fetchT →
      truthyOpt (J.get task "documentId") = true →
      truthyOpt (J.get task "userId") = true →
      env.fetchContent ((J.get task "documentId").getD .jnull)
          ((J.get task "userId").getD .jnull) = some link →
      link ≠ "" →
      Call.generate (transcriptText fetchT link) ∈ (process_youtube_video env task).2) := by
  rcases hsplit : pySplit link "v=" with _ | ⟨a, rest1⟩
  · rw [hsplit] at h; simp at h
  · rcases rest1 with _ | ⟨b, rest⟩
    · rw [hsplit] at h; simp at h
    · have hid : videoIdOf link = (pySplit b "&").headD "" := by
        simp [videoIdOf, hsplit]
      have hgt : get_transcript fetchT link = .ok (transcriptText fetchT link) := by
        simp only [get_transcript, hsplit, transcriptText, hid]
        rcases hf : fetchT ((pySplit b "&").headD "") with _ | sn <;> simp [hf]
      have hzero : fetchT (videoIdOf link) = none → get_transcript fetchT link = .ok "" := by
        intro hf0
        rw [hgt]
        simp [transcriptText, hf0]
      refine ⟨hgt, hzero, ?_⟩
      intro env task ht hd hu hc hl
      have hcnd : (!truthyOpt (J.get task "documentId") ||
          !truthyOpt (J.get task "userId")) = false := by
        simp [hd, hu]
      have hlink : (link != "") = true := by simpa using hl
      unfold process_youtube_video
      rw [ht] at *
      simp only [hcnd, Bool.false_eq_true, if_false, hc, truthyStrOpt, hlink,
        Bool.not_true, Option.getD_some, hgt]
      cases henv : env.update ((J.get task "documentId").getD .jnull)
          ((J.get task "userId").getD .jnull)
          (env.generate (transcriptText fetchT link)) <;>
        simp [henv]

/-- C9 witness: on a concrete watch link with a failing transcript fetch,
get_transcript returns the empty string and the video pipeline hands that
empty string to the generator. -/
theorem C9_transcript_degrades_to_empty_witness :
    get_transcript (fun _ => none) "https://www.youtube.com/watch?v=abc123&t=4" = .ok ""
  ∧ Call.generate "" ∈ (process_youtube_video cEnvVideo cTask).2 := by
  have h := C9_transcript_degrades_to_empty (fun _ => none)
    "https://www.youtube.com/watch?v=abc123&t=4" (by decide)
  refine ⟨h.2.1 rfl, ?_⟩
  exact h.2.2 cEnvVideo cTask rfl rfl rfl rfl (by decide)

/-- C9 counterexample: on stored content without the v= marker the
transcript lookup raises IndexError instead of returning a string, and
the exception escapes the video pipeline. -/
theorem C9_malformed_link_raises :
    get_transcript (fun _ => none) "https://example.com/page" = .error .indexError
  ∧ (process_youtube_video cEnvNoV cTask).1 = .error .indexError :=
  ⟨rfl, rfl⟩

theorem tempName_inj {m n : Nat} (h : tempName m = tempName n) : m = n := by
  have hd : ("tmp".data ++ List.replicate m 'x') = ("tmp".data ++ List.replicate n 'x') := by
    have := congrArg String.data h
    simpa [tempName, String.mk] using this
  have hr : List.replicate m 'x' = List.replicate n 'x' :=
    List.append_cancel_left hd
  have := congrArg List.length hr
  simpa using this

theorem unlinkFile_fresh (nid : Nat) (files : List String) (p : String)
    (h : p ∉ files) : unlinkFile ⟨nid, files ++ [p]⟩ p = ⟨nid, files⟩ := by
  unfold unlinkFile
  have h1 : List.filter (fun q => decide (q ≠ p)) [p] = [] := by simp
  have h2 : List.filter (fun q => decide (q ≠ p)) files = files :=
    List.filter_eq_self.mpr (fun a ha => decide_eq_true (fun he => h (he ▸ ha)))
  simp only [List.filter_append, h1, h2, List.append_nil]

/-- C5: the resolver tries the storage fetch on the derived key, then a
direct HTTP GET of the URL, then an HTTP GET of the URL rebuilt under the
configured public base, short-circuiting on the first success: whenever
the storage fetch fails (or no key is derivable) and the direct HTTP GET
succeeds, the resolution succeeds with the HTTP download, and a failure
result occurs only when every applicable strategy failed. -/
theorem C5_resolver_fallback_order (cfg : S3Config) (env : S3Env) (file_url : String)
    (fs : FS) :
    (∀ k, extract_s3_key_from_url cfg file_url = some k → env.s3Succeeds k = true →
      (download_file_from_url cfg env file_url fs).1 = some (tempName fs.nextId)
      ∧ (download_file_from_url cfg env file_url fs).2.2 = [.s3get k])
  ∧ (∀ k, extract_s3_key_from_url cfg file_url = some k → env.s3Succeeds k = false →
      env.httpSucceeds file_url = true →
      (download_file_from_url cfg env file_url fs).1 = some (tempName (fs.nextId + 1))
      ∧ (download_file_from_url cfg env file_url fs).2.2 = [.s3get k, .httpGet file_url])
  ∧ (extract_s3_key_from_url cfg file_url = none → env.httpSucceeds file_url = true →
      (download_file_from_url cfg env file_url fs).1 = some (tempName fs.nextId)
      ∧ (download_file_from_url cfg env file_url fs).2.2 = [.httpGet file_url])
  ∧ (∀ k pu, extract_s3_key_from_url cfg file_url = some k → cfg.publicUrl = some pu →
      env.s3Succeeds k = false → env.httpSucceeds file_url = false →
      env.httpSucceeds (alternativeUrl pu k) = true →
      (download_file_from_url cfg env file_url fs).1 = some (tempName (fs.nextId + 2))
      ∧ (download_file_from_url cfg env file_url fs).2.2 =
          [.s3get k, .httpGet file_url, .httpGet (alternativeUrl pu k)])
  ∧ ((download_file_from_url cfg env file_url fs).1 = none →
      env.httpSucceeds file_url = false
      ∧ (∀ k, extract_s3_key_from_url cfg file_url = some k → env.s3Succeeds k = false)
      ∧ (∀ k pu, extract_s3_key_from_url cfg file_url = some k → cfg.publicUrl = some pu →
          env.httpSucceeds (alternativeUrl pu k) = false)) := by
  have pa : ∀ k, extract_s3_key_from_url cfg file_url = some k → env.s3Succeeds k = true →
      (download_file_from_url cfg env file_url fs).1 = some (tempName fs.nextId)
      ∧ (download_file_from_url cfg env file_url fs).2.2 = [.s3get k] := by
    intro k hk hs3
    constructor <;>
      simp [download_file_from_url, hk, download_file_from_s3, mkTempFile, hs3]
  have pb : ∀ k, extract_s3_key_from_url cfg file_url = some k → env.s3Succeeds k = false →
      env.httpSucceeds file_url = true →
      (download_file_from_url cfg env file_url fs).1 = some (tempName (fs.nextId + 1))
      ∧ (download_file_from_url cfg env file_url fs).2.2 =
          [.s3get k, .httpGet file_url] := by
    intro k hk hs3 hH
    constructor <;>
      simp [download_file_from_url, hk, download_file_from_s3, download_file_via_http,
            mkTempFile, hs3, hH]
  have pc : extract_s3_key_from_url cfg file_url = none → env.httpSucceeds file_url = true →
      (download_file_from_url cfg env file_url fs).1 = some (tempName fs.nextId)
      ∧ (download_file_from_url cfg env file_url fs).2.2 = [.httpGet file_url] := by
    intro hk hH
    constructor <;>
      simp [download_file_from_url, hk, download_file_via_http, mkTempFile, hH]
  have pd : ∀ k pu, extract_s3_key_from_url cfg file_url = some k → cfg.publicUrl = some pu →
      env.s3Succeeds k = false → env.httpSucceeds file_url = false →
      env.httpSucceeds (alternativeUrl pu k) = true →
      (download_file_from_url cfg env file_url fs).1 = some (tempName (fs.nextId + 2))
      ∧ (download_file_from_url cfg env file_url fs).2.2 =
          [.s3get k, .httpGet file_url, .httpGet (alternativeUrl pu k)] := by
    intro k pu hk hpu hs3 hH halt
    rw [alternativeUrl] at halt
    constructor <;>
      simp [download_file_from_url, hk, hpu, download_file_from_s3,
            download_file_via_http, mkTempFile, unlinkFile, hs3, hH, halt, alternativeUrl]
  have pe : (download_file_from_url cfg env file_url fs).1 = none →
      env.httpSucceeds file_url = false
      ∧ (∀ k, extract_s3_key_from_url cfg file_url = some k → env.s3Succeeds k = false)
      ∧ (∀ k pu, extract_s3_key_from_url cfg file_url = some k → cfg.publicUrl = some pu →
          env.httpSucceeds (alternativeUrl pu k) = false) := by
    intro hnone
    have h1 : env.httpSucceeds file_url = false := by
      by_contra hH
      replace hH : env.httpSucceeds file_url = true := by simpa using hH
      rcases hk : extract_s3_key_from_url cfg file_url with _ | k
      · rw [(pc hk hH).1] at hnone
        simp at hnone
      · by_cases hs3 : env.s3Succeeds k = true
        · rw [(pa k hk hs3).1] at hnone
          simp at hnone
        · replace hs3 : env.s3Succeeds k = false := by simpa using hs3
          rw [(pb k hk hs3 hH).1] at hnone
          simp at hnone
    have h2 : ∀ k, extract_s3_key_from_url cfg file_url = some k →
        env.s3Succeeds k = false := by
      intro k hk
      by_contra hs3
      replace hs3 : env.s3Succeeds k = true := by simpa using hs3
      rw [(pa k hk hs3).1] at hnone
      simp at hnone
    have h3 : ∀ k pu, extract_s3_key_from_url cfg file_url = some k →
        cfg.publicUrl = some pu → env.httpSucceeds (alternativeUrl pu k) = false := by
      intro k pu hk hpu
      by_contra halt
      replace halt : env.httpSucceeds (alternativeUrl pu k) = true := by simpa using halt
      rw [(pd k pu hk hpu (h2 k hk) h1 halt).1] at hnone
      simp at hnone
    exact ⟨h1, h2, h3⟩
  exact ⟨pa, pb, pc, pd, pe⟩

/-- C5 witness: on a concrete URL under the endpoint with the storage
fetch failing and the HTTP GET succeeding, the resolver returns the
HTTP-downloaded file and its call trace is storage fetch then HTTP GET. -/
theorem C5_resolver_fallback_order_witness :
    (download_file_from_url cCfg cS3HttpOk cUrl cFS).1 = some (tempName 1)
  ∧ (download_file_from_url cCfg cS3HttpOk cUrl cFS).2.2 =
      [.s3get "bucket/doc.pdf", .httpGet cUrl] :=
  (C5_resolver_fallback_order cCfg cS3HttpOk cUrl cFS).2.1 "bucket/doc.pdf" rfl rfl rfl

theorem unlinkFile_fresh_pair (nid : Nat) (files : List String) (a b : String)
    (hb : b ∉ files) (hba : b ≠ a) :
    unlinkFile ⟨nid, files ++ [a, b]⟩ b = ⟨nid, files ++ [a]⟩ := by
  have hX : files ++ [a, b] = (files ++ [a]) ++ [b] := by simp
  rw [hX]
  refine unlinkFile_fresh nid (files ++ [a]) b ?_
  intro hm
  rcases List.mem_append.mp hm with h | h
  · exact hb h
  · exact hba (List.mem_singleton.mp h)

/-- C6 (amended): the HTTP strategies always delete their partial
temporary file on failure, but the storage strategy does not: on any
fetch failure it returns without removing the file it created, so when
the storage strategy was attempted and every strategy failed, the
resolver returns failure with exactly one leftover temporary file (the
one the storage strategy created). -/
theorem C6_temp_cleanup_partial (cfg : S3Config) (env : S3Env) (file_url : String)
    (fs : FS) (hfresh : ∀ n, fs.nextId ≤ n → tempName n ∉ fs.files) :
    (∀ url2, env.httpSucceeds url2 = false →
      (download_file_via_http env url2 fs).1 = none
      ∧ (download_file_via_http env url2 fs).2.1.files = fs.files)
  ∧ (∀ k, env.s3Succeeds k = false →
      (download_file_from_s3 env k fs).1 = none
      ∧ (download_file_from_s3 env k fs).2.1.files = fs.files ++ [tempName fs.nextId])
  ∧ (∀ k, extract_s3_key_from_url cfg file_url = some k →
      env.s3Succeeds k = false → env.httpSucceeds file_url = false →
      (∀ pu, cfg.publicUrl = some pu → env.httpSucceeds (alternativeUrl pu k) = false) →
      (download_file_from_url cfg env file_url fs).1 = none
      ∧ (download_file_from_url cfg env file_url fs).2.1.files =
          fs.files ++ [tempName fs.nextId]) := by
  refine ⟨?_, ?_, ?_⟩
  · intro url2 hH2
    have hmem : tempName fs.nextId ∉ fs.files := hfresh _ (le_refl _)
    have r := unlinkFile_fresh (fs.nextId + 1) fs.files (tempName fs.nextId) hmem
    constructor <;> simp [download_file_via_http, mkTempFile, hH2, r]
  · intro k hs3
    constructor <;> simp [download_file_from_s3, mkTempFile, hs3]
  · intro k hk hs3 hH halt2
    have r1 := unlinkFile_fresh_pair (fs.nextId + 1 + 1) fs.files (tempName fs.nextId)
      (tempName (fs.nextId + 1)) (hfresh _ (Nat.le_succ fs.nextId))
      (fun he => by have := tempName_inj he; omega)
    rcases hpu : cfg.publicUrl with _ | pu
    · constructor <;>
        simp [download_file_from_url, hk, hpu, download_file_from_s3,
              download_file_via_http, mkTempFile, hs3, hH, r1]
    · have ha := halt2 pu hpu
      rw [alternativeUrl] at ha
      have r2 := unlinkFile_fresh_pair (fs.nextId + 1 + 1 + 1) fs.files
        (tempName fs.nextId) (tempName (fs.nextId + 1 + 1)) (hfresh _ (by omega))
        (fun he => by have := tempName_inj he; omega)
      constructor <;>
        simp [download_file_from_url, hk, hpu, download_file_from_s3,
              download_file_via_http, mkTempFile, hs3, hH, ha, r1, r2]

/-- C6 witness: on concrete oracles where every strategy fails, a failing
HTTP download leaves the filesystem unchanged, while the full resolution
fails and leaves exactly the temporary file of the storage strategy behind. -/
theorem C6_temp_cleanup_partial_witness :
    (download_file_via_http cS3AllFail "https://u" cFS).2.1.files = cFS.files
  ∧ (download_file_from_url cCfg cS3AllFail cUrl cFS).1 = none
  ∧ (download_file_from_url cCfg cS3AllFail cUrl cFS).2.1.files =
      cFS.files ++ [tempName 0] := by
  have h := C6_temp_cleanup_partial cCfg cS3AllFail cUrl cFS (by intro n _; simp [cFS])
  refine ⟨(h.1 "https://u" rfl).2, ?_, ?_⟩
  · exact (h.2.2 "bucket/doc.pdf" rfl rfl rfl (fun pu _ => rfl)).1
  · exact (h.2.2 "bucket/doc.pdf" rfl rfl rfl (fun pu _ => rfl)).2

/-- C6 counterexample: with every strategy failing on a concrete URL the
resolver returns failure, but the count of temporary files on disk went
from zero to one (the file of the storage strategy was not deleted), so the
resolution does not leave the temporary file count unchanged. -/
theorem C6_resolver_leaves_temp_file :
    (download_file_from_url cCfg cS3AllFail cUrl cFS).1 = none
  ∧ (download_file_from_url cCfg cS3AllFail cUrl cFS).2.1.files.length = 1
  ∧ cFS.files.length = 0 :=
  ⟨rfl, rfl, rfl⟩

/-- C2 (amended): submit never blocks the calling poller: the executor
work queue is an unbounded SimpleQueue (capacity none, preserved by every
operation and none at construction), so the put returns at once with the
task appended; while every worker thread is busy the queued task cannot
start, and after one of the running tasks completes a queued task becomes
startable. -/
theorem C2_submit_backpressure (p : ThreadPool) (t : Nat)
    (hq : p.workQueue.capacity = none) :
    submitBlocks p = false
  ∧ (submit p t).workQueue.items = p.workQueue.items ++ [t]
  ∧ (∀ n, (mkThreadPool n).workQueue.capacity = none)
  ∧ ((submit p t).workQueue.capacity = p.workQueue.capacity
     ∧ (startNext p).workQueue.capacity = p.workQueue.capacity
     ∧ (completeTask p).workQueue.capacity = p.workQueue.capacity)
  ∧ (p.runningTasks = p.numThreads → canStartNext p = false)
  ∧ (p.runningTasks = p.numThreads → 0 < p.runningTasks →
      p.workQueue.items ≠ [] → canStartNext (completeTask p) = true) := by
  refine ⟨?_, ?_, ?_, ⟨?_, ?_, ?_⟩, ?_, ?_⟩
  · simp [submitBlocks, putBlocks, hq]
  · unfold submit
    rcases Nat.lt_or_ge p.numThreads p.maxWorkers with h | h
    · simp [h]
    · simp [Nat.not_lt.mpr h]
  · intro n
    rfl
  · unfold submit
    rcases Nat.lt_or_ge p.numThreads p.maxWorkers with h | h
    · simp [h]
    · simp [Nat.not_lt.mpr h]
  · unfold startNext
    by_cases hc : canStartNext p = true
    · simp [hc]
    · simp [hc]
  · rfl
  · intro hsat
    simp [canStartNext, hsat]
  · intro hsat hpos hne
    have hlt : p.runningTasks - 1 < p.numThreads := by omega
    rcases hitems : p.workQueue.items with _ | ⟨x, xs⟩
    · exact absurd hitems hne
    · simp [canStartNext, completeTask, hlt, hitems]

/-- C2 witness: with the saturated four-worker pool, the fifth submit does
not block and leaves its task queued; no queued task can start while all
four run, and one can start right after a completion. -/
theorem C2_submit_backpressure_witness :
    submitBlocks cPoolSaturated = false
  ∧ (submit cPoolSaturated 5).workQueue.items = [5]
  ∧ canStartNext cPoolSaturated = false
  ∧ canStartNext (completeTask (submit cPoolSaturated 5)) = true := by
  have h := C2_submit_backpressure cPoolSaturated 5 rfl
  have h2 := C2_submit_backpressure (submit cPoolSaturated 5) 6 rfl
  exact ⟨h.1, h.2.1, h.2.2.2.2.1 rfl,
         h2.2.2.2.2.2 rfl (by decide) (by decide)⟩

/-- C2 counterexample: with the default pool of four workers saturated by
four running tasks and none completed, the fifth submit returns without
blocking (the unbounded work queue accepts the put) and the task merely
waits in the queue, so the claimed blocking backpressure does not hold. -/
theorem C2_saturated_submit_returns :
    cPoolSaturated.maxWorkers = 4
  ∧ cPoolSaturated.numThreads = 4
  ∧ cPoolSaturated.runningTasks = 4
  ∧ submitBlocks cPoolSaturated = false
  ∧ (submit cPoolSaturated 5).workQueue.items = [5]
  ∧ (submit cPoolSaturated 5).runningTasks = 4 :=
  ⟨rfl, rfl, rfl, rfl, rfl, rfl⟩
